import Mathlib

/-!
Shallow embedding of the Tetris repository (src/tetris_engine.py,
src/game_policy_validator.py, src/agents/tetris_agent.py) and proofs of the
frozen claims about it.  Python integers are `Int` (`Nat` where the source
value is a count), Python `None`-able values are `Option`, board cells are
`Option String` exactly as in the source, and the one piece of randomness
(`random.choice` at spawn) is an explicit parameter.
-/

namespace TetrisSpec

/-- Tetromino pieces (`Tetromino` enum in src/tetris_engine.py). -/
inductive Tetromino where
  | I
  | O
  | T
  | S
  | Z
  | J
  | L
deriving DecidableEq, Repr

/-- The `.value` of the str enum member. -/
def Tetromino.value : Tetromino → String
  | .I => "I"
  | .O => "O"
  | .T => "T"
  | .S => "S"
  | .Z => "Z"
  | .J => "J"
  | .L => "L"

/-- Actions (`TetrisAction` enum in src/tetris_engine.py). -/
inductive TetrisAction where
  | SPAWN_PIECE
  | MOVE_LEFT
  | MOVE_RIGHT
  | MOVE_DOWN
  | ROTATE_CW
  | ROTATE_CCW
  | HARD_DROP
  | LINE_CLEAR
  | GAME_OVER
deriving DecidableEq, Repr

/-- The `.value` of the str enum member. -/
def TetrisAction.value : TetrisAction → String
  | .SPAWN_PIECE => "SPAWN_PIECE"
  | .MOVE_LEFT => "MOVE_LEFT"
  | .MOVE_RIGHT => "MOVE_RIGHT"
  | .MOVE_DOWN => "MOVE_DOWN"
  | .ROTATE_CW => "ROTATE_CW"
  | .ROTATE_CCW => "ROTATE_CCW"
  | .HARD_DROP => "HARD_DROP"
  | .LINE_CLEAR => "LINE_CLEAR"
  | .GAME_OVER => "GAME_OVER"

/-- Tetromino shapes at rotation state 0 (`SHAPES` in src/tetris_engine.py),
block offsets as (dr, dc). -/
def SHAPES : Tetromino → List (Int × Int)
  | .I => [(0, 0), (0, 1), (0, 2), (0, 3)]
  | .O => [(0, 0), (0, 1), (1, 0), (1, 1)]
  | .T => [(0, 1), (1, 0), (1, 1), (1, 2)]
  | .S => [(0, 1), (0, 2), (1, 0), (1, 1)]
  | .Z => [(0, 0), (0, 1), (1, 1), (1, 2)]
  | .J => [(0, 0), (1, 0), (1, 1), (1, 2)]
  | .L => [(0, 2), (1, 0), (1, 1), (1, 2)]

/-- A board: list of rows, each a list of cells (`None` = empty). -/
abbrev Board := List (List (Option String))

/-- `GameState` dataclass of src/tetris_engine.py. -/
structure GameState where
  board : Board
  current_piece : Option Tetromino
  current_pos : Int × Int
  current_rotation : Nat
  score : Int
  lines_cleared : Int
  game_over : Bool
  move_count : Int
deriving DecidableEq, Repr

/-- `GameState.new_game` (src/tetris_engine.py lines 65-77). -/
def GameState.new_game (rows : Nat) (cols : Nat) : GameState :=
  { board := List.replicate rows (List.replicate cols none)
    current_piece := none
    current_pos := ((0 : Int), (3 : Int))
    current_rotation := 0
    score := 0
    lines_cleared := 0
    game_over := false
    move_count := 0 }

/-- `TetrisEngine` construction data: the grid dimensions. -/
structure TetrisEngine where
  rows : Nat
  cols : Nat
deriving DecidableEq, Repr

/-- One quarter turn of the block offsets: `(dr, dc) -> (dc, -dr)`
(the rotation step inside `_get_piece_blocks`). -/
def rotateOnce (blocks : List (Int × Int)) : List (Int × Int) :=
  blocks.map fun b => (b.2, -b.1)

/-- `TetrisEngine._get_piece_blocks`: apply the quarter turn `rotation` times. -/
def getPieceBlocks (piece : Tetromino) (rotation : Nat) : List (Int × Int) :=
  rotateOnce^[rotation] (SHAPES piece)

/-- Board cell lookup `state.board[row][col]`; only evaluated by the source
after the bounds check, so the out-of-range default is never reached there. -/
def cellAt (b : Board) (r c : Int) : Option String :=
  (b.getD r.toNat []).getD c.toNat none

/-- `TetrisEngine._check_collision`. -/
def checkCollision (e : TetrisEngine) (s : GameState) : Bool :=
  match s.current_piece with
  | none => false
  | some p =>
    (getPieceBlocks p s.current_rotation).any fun blk =>
      decide (s.current_pos.1 + blk.1 < 0) ||
      decide ((e.rows : Int) ≤ s.current_pos.1 + blk.1) ||
      decide (s.current_pos.2 + blk.2 < 0) ||
      decide ((e.cols : Int) ≤ s.current_pos.2 + blk.2) ||
      (cellAt s.board (s.current_pos.1 + blk.1) (s.current_pos.2 + blk.2)).isSome

/-- Replace the cell at row `r`, column `c` (the assignment
`new_board[row][col] = ...` in `_lock_piece`). -/
def setCell (b : Board) (r c : Nat) (v : Option String) : Board :=
  b.set r ((b.getD r []).set c v)

/-- The piece-merging loop of `TetrisEngine._lock_piece` (lines 255-261):
every in-bounds block cell is written, out-of-bounds cells are discarded. -/
def mergePiece (e : TetrisEngine) (b : Board) (p : Tetromino) (rotation : Nat)
    (pos : Int × Int) : Board :=
  (getPieceBlocks p rotation).foldl
    (fun acc blk =>
      let r := pos.1 + blk.1
      let c := pos.2 + blk.2
      if 0 ≤ r ∧ r < (e.rows : Int) ∧ 0 ≤ c ∧ c < (e.cols : Int) then
        setCell acc r.toNat c.toNat (some p.value)
      else acc)
    b

/-- The completed-line scan of `_lock_piece` (lines 263-267), in increasing
row order exactly as `range(self.rows)` produces it. -/
def linesToClear (e : TetrisEngine) (b : Board) : List Nat :=
  (List.range e.rows).filter fun r => (b.getD r []).all fun cell => cell.isSome

/-- The clearing loop of `_lock_piece` (lines 269-272): for each line index in
the given order, `pop(line)` then `insert(0, empty row)`.  The source iterates
`sorted(lines_to_clear, reverse=True)`; since `linesToClear` is increasing,
that order is its reversal. -/
def clearLines (cols : Nat) : Board → List Nat → Board
  | b, [] => b
  | b, line :: rest => clearLines cols (List.replicate cols none :: b.eraseIdx line) rest

/-- The scoring table `{0: 0, 1: 100, 2: 300, 3: 500, 4: 800}` with
`.get(line_count, 0)` defaulting to 0. -/
def pointsFor : Nat → Int
  | 0 => 0
  | 1 => 100
  | 2 => 300
  | 3 => 500
  | 4 => 800
  | _ => 0

/-- Engine event payloads: one record holding the union of the dict fields the
source events carry (`from`/`to` are named `from_pos`/`to_pos` because `from`
is a Lean keyword); fields absent from a given event keep their defaults. -/
structure EventPayload where
  action : String
  piece : String := ""
  position : Int × Int := ((0 : Int), (3 : Int))
  game_over : Bool := false
  from_pos : Int × Int := ((0 : Int), (0 : Int))
  to_pos : Int × Int := ((0 : Int), (0 : Int))
  move_number : Int := 0
  from_rotation : Nat := 0
  to_rotation : Nat := 0
  drop_distance : Nat := 0
  bonus_points : Int := 0
  lines_cleared : Int := 0
  cleared_rows : List Nat := []
  points_earned : Int := 0
  total_score : Int := 0
deriving DecidableEq, Repr

/-- `TetrisEngine._lock_piece` (lines 248-299).  Every caller in the source
guards on `state.current_piece` being present; on `none` (where Python would
raise) we return the state unchanged. -/
def lockPiece (e : TetrisEngine) (s : GameState) : GameState × EventPayload :=
  match s.current_piece with
  | none => (s, { action := "PIECE_LOCKED" })
  | some p =>
    let new_board := mergePiece e s.board p s.current_rotation s.current_pos
    let lines := linesToClear e new_board
    let cleared_board := clearLines e.cols new_board lines.reverse
    let line_count := lines.length
    let new_state : GameState :=
      { board := cleared_board
        current_piece := none
        current_pos := ((0 : Int), (3 : Int))
        current_rotation := 0
        score := s.score + pointsFor line_count
        lines_cleared := s.lines_cleared + (line_count : Int)
        game_over := s.game_over
        move_count := s.move_count }
    (new_state,
     { action := "PIECE_LOCKED"
       piece := p.value
       position := s.current_pos
       lines_cleared := (line_count : Int)
       cleared_rows := lines
       points_earned := pointsFor line_count
       total_score := new_state.score })

/-- `TetrisEngine.spawn_piece` (lines 91-122); the `random.choice` result is
the explicit `piece` parameter. -/
def spawnPiece (e : TetrisEngine) (piece : Tetromino) (s : GameState) :
    GameState × EventPayload :=
  let st0 : GameState :=
    { s with current_piece := some piece
             current_pos := ((0 : Int), (3 : Int))
             current_rotation := 0 }
  let new_state := if checkCollision e st0 then { st0 with game_over := true } else st0
  (new_state,
   { action := "SPAWN_PIECE"
     piece := piece.value
     position := new_state.current_pos
     game_over := new_state.game_over })

/-- The candidate position computed by `TetrisEngine.move` (lines 134-144);
`none` is the `else: return state, None` branch for non-move actions. -/
def movePos (pos : Int × Int) : TetrisAction → Option (Int × Int)
  | .MOVE_LEFT => some (pos.1, pos.2 - 1)
  | .MOVE_RIGHT => some (pos.1, pos.2 + 1)
  | .MOVE_DOWN => some (pos.1 + 1, pos.2)
  | _ => none

/-- `TetrisEngine.move` (lines 124-173). -/
def move (e : TetrisEngine) (s : GameState) (action : TetrisAction) :
    GameState × Option EventPayload :=
  if s.current_piece = none ∨ s.game_over = true then (s, none)
  else
    match movePos s.current_pos action with
    | none => (s, none)
    | some new_pos =>
      let new_state := { s with current_pos := new_pos, move_count := s.move_count + 1 }
      if checkCollision e new_state then
        if action = TetrisAction.MOVE_DOWN then
          let r := lockPiece e s
          (r.1, some r.2)
        else (s, none)
      else
        (new_state,
         some { action := action.value
                from_pos := s.current_pos
                to_pos := new_pos
                move_number := new_state.move_count })

/-- `TetrisEngine.rotate` (lines 175-203).  Python computes
`(rotation + (1 if clockwise else -1)) % 4` with a non-negative result; over
`Nat` the counter-clockwise case is `(rotation + 3) % 4`, which agrees with
Python's `(rotation - 1) % 4` for every non-negative rotation. -/
def rotate (e : TetrisEngine) (s : GameState) (clockwise : Bool) :
    GameState × Option EventPayload :=
  if s.current_piece = none ∨ s.game_over = true then (s, none)
  else
    let new_rotation := (s.current_rotation + if clockwise then 1 else 3) % 4
    let new_state := { s with current_rotation := new_rotation, move_count := s.move_count + 1 }
    if checkCollision e new_state then (s, none)
    else
      (new_state,
       some { action := (if clockwise then TetrisAction.ROTATE_CW else TetrisAction.ROTATE_CCW).value
              from_rotation := s.current_rotation
              to_rotation := new_rotation
              move_number := new_state.move_count })

/-- One downward step of the hard-drop scan: the `test_state` of
`TetrisEngine.hard_drop` (lines 215-225). -/
def shiftDown (s : GameState) : GameState :=
  { s with current_pos := (s.current_pos.1 + 1, s.current_pos.2) }

/-- The `while True` descent loop of `TetrisEngine.hard_drop` (lines 214-231),
with explicit fuel.  The loop terminates because a present piece has
out-of-bounds blocks after at most `rows + 1` steps (`hardDropAux_fuel` below
shows `rows + 2` fuel is never exhausted), so the fueled recursion computes
exactly the Python loop. -/
def hardDropAux (e : TetrisEngine) : Nat → GameState → Nat → GameState × Nat
  | 0, s, dist => (s, dist)
  | fuel + 1, s, dist =>
    let t := shiftDown s
    if checkCollision e t then (s, dist) else hardDropAux e fuel t (dist + 1)

/-- `TetrisEngine.hard_drop` (lines 205-246). -/
def hardDrop (e : TetrisEngine) (s : GameState) : GameState × Option EventPayload :=
  if s.current_piece = none ∨ s.game_over = true then (s, none)
  else
    let r := hardDropAux e (e.rows + 2) s 0
    let current_state := r.1
    let drop_distance := r.2
    let locked := lockPiece e current_state
    ({ locked.1 with score := locked.1.score + (drop_distance : Int) * 2 },
     some { action := "HARD_DROP"
            from_pos := s.current_pos
            to_pos := current_state.current_pos
            drop_distance := drop_distance
            bonus_points := (drop_distance : Int) * 2 })

/-! ## Policy validator (src/game_policy_validator.py) -/

/-- The slice of a stored event's payload dict that the validator reads:
`.get("action")`, `.get("lines_cleared", 0)`, `.get("points_earned", 0)`. -/
structure HistEvent where
  action : String
  lines_cleared : Int := 0
  points_earned : Int := 0
deriving DecidableEq, Repr, Inhabited

/-- The five per-tenant policy thresholds. -/
structure Policies where
  max_moves_per_piece : Nat
  max_consecutive_rotations : Nat
  max_same_action_streak : Nat
  max_backtrack_moves : Nat
  bonus_fraud_threshold : Int
deriving DecidableEq, Repr

/-- The thresholds set in `GamePolicyValidator.__init__`. -/
def defaultPolicies : Policies :=
  { max_moves_per_piece := 50
    max_consecutive_rotations := 10
    max_same_action_streak := 5
    max_backtrack_moves := 3
    bonus_fraud_threshold := 1000 }

/-- `TENANT_POLICIES["arcade_mode"]`. -/
def arcadePolicies : Policies :=
  { max_moves_per_piece := 30
    max_consecutive_rotations := 5
    max_same_action_streak := 3
    max_backtrack_moves := 2
    bonus_fraud_threshold := 500 }

/-- `TENANT_POLICIES["casual_mode"]`. -/
def casualPolicies : Policies :=
  { max_moves_per_piece := 100
    max_consecutive_rotations := 20
    max_same_action_streak := 10
    max_backtrack_moves := 5
    bonus_fraud_threshold := 2000 }

/-- `TENANT_POLICIES["competitive_mode"]`. -/
def competitivePolicies : Policies :=
  { max_moves_per_piece := 20
    max_consecutive_rotations := 3
    max_same_action_streak := 2
    max_backtrack_moves := 0
    bonus_fraud_threshold := 300 }

/-- `PolicyResult` dataclass. -/
structure PolicyResult where
  approved : Bool
  reason : Option String := none
  penalty_points : Int := 0
  warning : Option String := none
deriving DecidableEq, Repr

/-- Backward scan of `_count_moves_for_current_piece` (applied to the reversed
history): stop at the first `SPAWN_PIECE`, count move/rotate actions. -/
def countMovesAux : List HistEvent → Nat
  | [] => 0
  | ev :: rest =>
    if ev.action = "SPAWN_PIECE" then 0
    else
      (if ev.action ∈ ["MOVE_LEFT", "MOVE_RIGHT", "MOVE_DOWN", "ROTATE_CW", "ROTATE_CCW"]
       then 1 else 0) + countMovesAux rest

/-- `GamePolicyValidator._count_moves_for_current_piece`. -/
def countMovesForCurrentPiece (history : List HistEvent) : Nat :=
  countMovesAux history.reverse

/-- Backward scan of `_count_consecutive_actions`: count while the action is
in the given set, break otherwise. -/
def consecAux (actions : List String) : List HistEvent → Nat
  | [] => 0
  | ev :: rest => if ev.action ∈ actions then consecAux actions rest + 1 else 0

/-- `GamePolicyValidator._count_consecutive_actions`. -/
def countConsecutiveActions (history : List HistEvent) (actions : List String) : Nat :=
  consecAux actions history.reverse

/-- The `opposites` dict of `_is_backtrack_move` as `.get`: all four pairs. -/
def opposites (a : String) : Option String :=
  if a = "MOVE_LEFT" then some "MOVE_RIGHT"
  else if a = "MOVE_RIGHT" then some "MOVE_LEFT"
  else if a = "ROTATE_CW" then some "ROTATE_CCW"
  else if a = "ROTATE_CCW" then some "ROTATE_CW"
  else none

/-- `GamePolicyValidator._is_backtrack_move`. -/
def isBacktrackMove (action : String) (history : List HistEvent) : Bool :=
  match history.getLast? with
  | none => false
  | some last => opposites last.action = some action

/-- The `opposites` dict of `_count_backtrack_moves` as `.get`: it lists only
the two horizontal-move pairs, not the rotation pairs. -/
def oppositesLR (a : String) : Option String :=
  if a = "MOVE_LEFT" then some "MOVE_RIGHT"
  else if a = "MOVE_RIGHT" then some "MOVE_LEFT"
  else none

/-- `GamePolicyValidator._count_backtrack_moves`: for
`i in range(1, min(len(history), 20))` compare `history[-i-1]` with
`history[-i]` (negative Python index `-j` is index `length - j`). -/
def countBacktrackMoves (history : List HistEvent) : Nat :=
  let n := history.length
  (List.range' 1 (min n 20 - 1)).countP fun i =>
    decide (oppositesLR (history.getD (n - i - 1) default).action =
      some (history.getD (n - i) default).action)

/-- `GamePolicyValidator.validate_move` (policy checks 1-4 in order, then
approve).  The per-branch counts are bound with `let` rather than computed
inside the branch; the functions are pure, so this is the same function. -/
def validateMove (v : Policies) (action : String) (history : List HistEvent) :
    PolicyResult :=
  let piece_moves := countMovesForCurrentPiece history
  if v.max_moves_per_piece ≤ piece_moves then
    { approved := false
      reason := some s!"Max moves per piece exceeded ({piece_moves})"
      penalty_points := 50 }
  else
    let consecutive_rotations := countConsecutiveActions history ["ROTATE_CW", "ROTATE_CCW"]
    if action ∈ ["ROTATE_CW", "ROTATE_CCW"] ∧
        v.max_consecutive_rotations ≤ consecutive_rotations then
      { approved := false
        reason := some s!"Rotation spam detected ({consecutive_rotations} consecutive)"
        penalty_points := 20 }
    else
      let streak := countConsecutiveActions history [action]
      if action ∈ ["MOVE_LEFT", "MOVE_RIGHT"] ∧ v.max_same_action_streak ≤ streak then
        { approved := false
          reason := some s!"Action spam: {action} repeated {streak} times"
          penalty_points := 10 }
      else
        let backtrack_count := countBacktrackMoves history
        if isBacktrackMove action history = true ∧
            v.max_backtrack_moves ≤ backtrack_count then
          { approved := false
            reason := some s!"Backtrack limit exceeded ({backtrack_count})"
            penalty_points := 15 }
        else { approved := true }

/-- The scoring table `expected_points` of `validate_line_clear` with
`.get(lines_cleared, 0)`. -/
def expectedPoints (lines : Int) : Int :=
  if lines = 0 then 0
  else if lines = 1 then 100
  else if lines = 2 then 300
  else if lines = 3 then 500
  else if lines = 4 then 800
  else 0

/-- Backward scan of `_get_recent_line_clears`: collect events that are line
clears (action `LINE_CLEAR` or positive `lines_cleared`), breaking once
`limit` are collected. -/
def recentClearsAux (limit : Nat) : List HistEvent → List HistEvent
  | [] => []
  | ev :: rest =>
    if ev.action = "LINE_CLEAR" ∨ 0 < ev.lines_cleared then
      if limit ≤ 1 then [ev] else ev :: recentClearsAux (limit - 1) rest
    else recentClearsAux limit rest

/-- `GamePolicyValidator._get_recent_line_clears`. -/
def getRecentLineClears (history : List HistEvent) (limit : Nat) : List HistEvent :=
  recentClearsAux limit history.reverse

/-- `GamePolicyValidator.validate_line_clear` (lines 117-152). -/
def validateLineClear (v : Policies) (lines_cleared points_earned : Int)
    (history : List HistEvent) : PolicyResult :=
  let expected := expectedPoints lines_cleared
  if points_earned ≠ expected then
    { approved := false
      reason := some s!"Invalid scoring: {lines_cleared} lines should give {expected} points, got {points_earned}"
      penalty_points := points_earned }
  else
    let recent_clears := getRecentLineClears history 5
    let total_recent_points := (recent_clears.map fun ev => ev.points_earned).sum
    if 3 ≤ recent_clears.length ∧ v.bonus_fraud_threshold < total_recent_points then
      { approved := true
        warning := some "Suspicious scoring pattern detected (fraud review triggered)" }
    else { approved := true }

/-! ## Orchestrator (src/agents/tetris_agent.py) -/

/-- One record appended to the event store by the agent: the FSM state tag
passed to `append_event_safe` plus the payload fields the agent writes; fields
a given append does not write keep their defaults. -/
structure LogEvent where
  fsm : String
  stage : String
  action : String
  reason : Option String := none
  penalty_points : Int := 0
  revoked_points : Int := 0
  piece : String := ""
  position : Int × Int := ((0 : Int), (0 : Int))
  payload : Option EventPayload := none
  final_score : Int := 0
  lines_cleared : Int := 0
  move_count : Int := 0
  sealed_at : String := ""
deriving DecidableEq, Repr

/-- The FINALIZED append of `TetrisAgent._finalize_game`. -/
def finalizeEvent (final_state : GameState) : LogEvent :=
  { fsm := "FINALIZED"
    stage := "game_over"
    action := "GAME_FINALIZED"
    final_score := final_state.score
    lines_cleared := final_state.lines_cleared
    move_count := final_state.move_count
    sealed_at := "2026-02-15T00:00:00Z" }

/-- `TetrisAgent.execute_action` (lines 110-251), as a pure function of the
pieces of the environment it reads: the validator thresholds, the engine, the
current game state, the history payloads read from the store, the submitted
action, and the piece `random.choice` would pick at a subsequent spawn.
Returns (updated game state, events appended to the store in order, policy
result, event payload returned to the caller). -/
def executeAction (v : Policies) (e : TetrisEngine) (gs : GameState)
    (history : List HistEvent) (action : TetrisAction) (next_piece : Tetromino) :
    GameState × List LogEvent × PolicyResult × Option EventPayload :=
  let policy_result := validateMove v action.value history
  if policy_result.approved = false then
    ({ gs with game_over := true },
     [{ fsm := "FAILED"
        stage := "policy_violation"
        action := action.value
        reason := policy_result.reason
        penalty_points := policy_result.penalty_points }],
     policy_result, none)
  else
    let step : Option (GameState × Option EventPayload) :=
      if action ∈ [TetrisAction.MOVE_LEFT, TetrisAction.MOVE_RIGHT, TetrisAction.MOVE_DOWN] then
        some (move e gs action)
      else if action ∈ [TetrisAction.ROTATE_CW, TetrisAction.ROTATE_CCW] then
        some (rotate e gs (action = TetrisAction.ROTATE_CW))
      else if action = TetrisAction.HARD_DROP then
        some (hardDrop e gs)
      else none
    match step with
    | none => (gs, [], { approved := false, reason := some "Unknown action" }, none)
    | some (new_state, event_payload) =>
      match event_payload with
      | none =>
        (gs, [], { approved := false, reason := some "Invalid move (collision)" }, none)
      | some payload =>
        let fraud_check : Option PolicyResult :=
          if payload.action = "PIECE_LOCKED" then
            let r := validateLineClear v payload.lines_cleared payload.points_earned history
            if r.approved = false then some r else none
          else none
        match fraud_check with
        | some line_clear_result =>
          ({ gs with game_over := true },
           [{ fsm := "FAILED"
              stage := "fraud_detected"
              action := "LINE_CLEAR_FRAUD"
              reason := line_clear_result.reason
              revoked_points := payload.points_earned }],
           line_clear_result, none)
        | none =>
          let game_event : LogEvent :=
            { fsm := "RUNNING"
              stage := "game_action"
              action := payload.action
              payload := some payload }
          if payload.action = "PIECE_LOCKED" then
            let sp := spawnPiece e next_piece new_state
            let spawn_event : LogEvent :=
              { fsm := "RUNNING"
                stage := "spawn_piece"
                action := sp.2.action
                piece := sp.2.piece
                position := sp.2.position }
            if sp.1.game_over then
              (sp.1, [game_event, spawn_event, finalizeEvent sp.1], policy_result, some payload)
            else
              (sp.1, [game_event, spawn_event], policy_result, some payload)
          else
            (new_state, [game_event], policy_result, some payload)

/-! ## Concrete fixtures -/

/-- The engine the agent constructs: `TetrisEngine(rows=20, cols=10)`. -/
def eng20 : TetrisEngine := { rows := 20, cols := 10 }

/-- An empty 10-cell row. -/
def emptyRow10 : List (Option String) := List.replicate 10 none

/-- A 10-cell row occupied except in columns 0 and 1. -/
def nearFullRow10 : List (Option String) := [none, none] ++ List.replicate 8 (some "X")

/-- A 20x10 board whose bottom two rows are full except columns 0-1. -/
def bugBoard : Board := List.replicate 18 emptyRow10 ++ [nearFullRow10, nearFullRow10]

/-- An O piece sitting at (18, 0) over `bugBoard`: locking it completes the
bottom two rows. -/
def bugState : GameState :=
  { board := bugBoard
    current_piece := some Tetromino.O
    current_pos := ((18 : Int), (0 : Int))
    current_rotation := 0
    score := 0
    lines_cleared := 0
    game_over := false
    move_count := 0 }

/-- A fresh 20x10 game with an I piece active at the spawn position. -/
def dropState : GameState :=
  { GameState.new_game 20 10 with current_piece := some Tetromino.I }

/-- Six alternating rotation events: every adjacent transition is an
opposite rotation pair. -/
def rotHist : List HistEvent :=
  [{ action := "ROTATE_CW" }, { action := "ROTATE_CCW" }, { action := "ROTATE_CW" },
   { action := "ROTATE_CCW" }, { action := "ROTATE_CW" }, { action := "ROTATE_CCW" }]

/-- Fifty MOVE_LEFT events with no spawn: check 1 of `validate_move` fires. -/
def hist50 : List HistEvent := List.replicate 50 { action := "MOVE_LEFT" }

/-- Modelled from the claim's words (spec §4.2 check 4): the count of adjacent
opposite-pair transitions *of either pair kind* (left-right and cw-ccw) within
the last 20 history entries — same scan as `countBacktrackMoves` but with the
full `opposites` table.  To be compared with `countBacktrackMoves`, which the
source restricts to the left-right pairs. -/
def countBacktrackMovesSpec (history : List HistEvent) : Nat :=
  let n := history.length
  (List.range' 1 (min n 20 - 1)).countP fun i =>
    decide (opposites (history.getD (n - i - 1) default).action =
      some (history.getD (n - i) default).action)

/-! ## Claim theorems -/

/-- C1: the claim states that a lock completing k fully-occupied rows removes
exactly those k rows and inserts k empty rows at the top.  The code violates
this for k = 2: locking the O piece on `bugState` completes rows 18 and 19,
but the interleaved `pop`/`insert(0, ...)` loop of `_lock_piece` shifts the
indices after the first pop, so a fully-occupied row survives on the resulting
board, which therefore differs from the claim's all-empty expected board. -/
theorem c1_lock_leaves_full_row :
    (lockPiece eng20 bugState).2.cleared_rows = [18, 19] ∧
    (lockPiece eng20 bugState).2.lines_cleared = 2 ∧
    ((lockPiece eng20 bugState).1.board.any fun r => r.all fun c => c.isSome) = true ∧
    (lockPiece eng20 bugState).1.board ≠ List.replicate 20 emptyRow10 := by
  decide

/-- C2: the claim states that every approved transition that locks the piece —
including a hard-drop lock — is immediately followed by a spawn whose RUNNING
event is appended.  The code violates this for hard drops: `hard_drop` locks
the piece (the returned state has no current piece) but reports the event
action `HARD_DROP`, so `execute_action`'s spawn branch (which tests for
`PIECE_LOCKED`) is skipped: exactly one event is appended and it is not a
spawn event. -/
theorem c2_hard_drop_lock_skips_spawn :
    ((executeAction defaultPolicies eng20 dropState [] TetrisAction.HARD_DROP Tetromino.O).1.current_piece
      = none) ∧
    ((executeAction defaultPolicies eng20 dropState [] TetrisAction.HARD_DROP Tetromino.O).2.1.map
        fun ev => ev.action) = ["HARD_DROP"] ∧
    ((executeAction defaultPolicies eng20 dropState [] TetrisAction.HARD_DROP Tetromino.O).2.1.map
        fun ev => ev.fsm) = ["RUNNING"] ∧
    ((executeAction defaultPolicies eng20 dropState [] TetrisAction.HARD_DROP Tetromino.O).2.2.1.approved
      = true) := by
  decide

/-- C3: `validate_line_clear` rejects exactly when the submitted points differ
from the canonical table value for the submitted line count (the second,
pattern-inspection branch always approves), the rejection's penalty equals the
submitted points, and the 4-lines/750-points scenario is rejected with the
mismatch reason and revoked points 750. -/
theorem c3_validate_line_clear_fraud :
    (∀ (v : Policies) (lines points : Int) (history : List HistEvent),
      ((validateLineClear v lines points history).approved = false ↔
        points ≠ expectedPoints lines) ∧
      ((validateLineClear v lines points history).approved = false →
        (validateLineClear v lines points history).penalty_points = points)) ∧
    validateLineClear defaultPolicies 4 750 [] =
      { approved := false
        reason := some "Invalid scoring: 4 lines should give 800 points, got 750"
        penalty_points := 750 } := by
  constructor
  · intro v lines points history
    by_cases h : points = expectedPoints lines
    · subst h
      simp only [validateLineClear, ne_eq, not_true_eq_false, if_false, ite_not]
      constructor
      · split <;> simp
      · split <;> simp
    · simp [validateLineClear, h]
  · decide

/-- C3 witness: the general part of `c3_validate_line_clear_fraud` applied at
lines = 2, points = 999: the rejection revokes exactly 999. -/
theorem c3_validate_line_clear_fraud_witness :
    (validateLineClear defaultPolicies 2 999 []).penalty_points = 999 :=
  (c3_validate_line_clear_fraud.1 defaultPolicies 2 999 []).2 (by decide)

/-- C6 counterexample: the claim counts adjacent opposite-pair transitions "of
either pair kind", but `_count_backtrack_moves` counts only the left-right
pairs.  On six alternating rotations with proposed ROTATE_CW under the default
thresholds (max_backtrack_moves = 3), checks 1-3 pass, the proposed action is
a backtrack, the claim's either-kind count is 5 ≥ 3 — so the claim demands a
rejection — yet the code approves. -/
theorem c6_rotation_backtracks_not_counted :
    isBacktrackMove "ROTATE_CW" rotHist = true ∧
    defaultPolicies.max_backtrack_moves ≤ countBacktrackMovesSpec rotHist ∧
    countMovesForCurrentPiece rotHist < defaultPolicies.max_moves_per_piece ∧
    countConsecutiveActions rotHist ["ROTATE_CW", "ROTATE_CCW"] <
      defaultPolicies.max_consecutive_rotations ∧
    (validateMove defaultPolicies "ROTATE_CW" rotHist).approved = true := by
  decide

/-- C6 (amended): with checks 1-3 passing, `validate_move` rejects with
penalty 15 exactly when the proposed action is the exact opposite of the
immediately preceding action (all four opposite pairs) and the count of
adjacent *left-right* opposite-pair transitions (the rotation pairs are not
counted) within the last 20 history entries reaches `max_backtrack_moves`;
in competitive mode with history [move-left], a proposed move-right is
rejected with penalty 15. -/
theorem c6_backtrack_policy :
    (∀ (v : Policies) (a : String) (h : List HistEvent),
      countMovesForCurrentPiece h < v.max_moves_per_piece →
      (a ∈ ["ROTATE_CW", "ROTATE_CCW"] →
        countConsecutiveActions h ["ROTATE_CW", "ROTATE_CCW"] < v.max_consecutive_rotations) →
      (a ∈ ["MOVE_LEFT", "MOVE_RIGHT"] →
        countConsecutiveActions h [a] < v.max_same_action_streak) →
      (((validateMove v a h).approved = false ∧ (validateMove v a h).penalty_points = 15) ↔
        (isBacktrackMove a h = true ∧ v.max_backtrack_moves ≤ countBacktrackMoves h))) ∧
    validateMove competitivePolicies "MOVE_RIGHT" [{ action := "MOVE_LEFT" }] =
      { approved := false, reason := some "Backtrack limit exceeded (0)", penalty_points := 15 } := by
  constructor
  · intro v a h h1 h2 h3
    have g1 : ¬ v.max_moves_per_piece ≤ countMovesForCurrentPiece h := Nat.not_le.mpr h1
    have g2 : ¬ (a ∈ ["ROTATE_CW", "ROTATE_CCW"] ∧
        v.max_consecutive_rotations ≤ countConsecutiveActions h ["ROTATE_CW", "ROTATE_CCW"]) :=
      fun hc => absurd hc.2 (Nat.not_le.mpr (h2 hc.1))
    have g3 : ¬ (a ∈ ["MOVE_LEFT", "MOVE_RIGHT"] ∧
        v.max_same_action_streak ≤ countConsecutiveActions h [a]) :=
      fun hc => absurd hc.2 (Nat.not_le.mpr (h3 hc.1))
    simp only [validateMove, if_neg g1, if_neg g2, if_neg g3]
    by_cases h4 : isBacktrackMove a h = true ∧
        v.max_backtrack_moves ≤ countBacktrackMoves h
    · rw [if_pos h4]
      simp [h4]
    · rw [if_neg h4]
      simp [h4]
  · decide

/-- C6 witness: the amended equivalence applied to the competitive-mode
scenario (threshold 0, history [move-left], proposed move-right). -/
theorem c6_backtrack_policy_witness :
    (validateMove competitivePolicies "MOVE_RIGHT" [{ action := "MOVE_LEFT" }]).approved = false ∧
    (validateMove competitivePolicies "MOVE_RIGHT" [{ action := "MOVE_LEFT" }]).penalty_points = 15 :=
  (c6_backtrack_policy.1 competitivePolicies "MOVE_RIGHT" [{ action := "MOVE_LEFT" }]
    (by decide) (by decide) (by decide)).mpr (by decide)

/-- C8 counterexample: the claim says an unknown action is rejected *before*
`validate_move` and that no event is appended; but `execute_action` calls
`validate_move` first for every action.  Submitting the non-player action
SPAWN_PIECE with a 50-move history makes the validator's check 1 fire: a
FAILED event is appended and the returned rejection is the validator's
(penalty 50), not the unknown-action rejection. -/
theorem c8_unknown_action_reaches_validator :
    ((executeAction defaultPolicies eng20 dropState hist50 TetrisAction.SPAWN_PIECE Tetromino.O).2.1
      ≠ []) ∧
    ((executeAction defaultPolicies eng20 dropState hist50 TetrisAction.SPAWN_PIECE Tetromino.O).2.1.map
        fun ev => ev.fsm) = ["FAILED"] ∧
    ((executeAction defaultPolicies eng20 dropState hist50 TetrisAction.SPAWN_PIECE Tetromino.O).2.2.1
      = { approved := false
          reason := some "Max moves per piece exceeded (50)"
          penalty_points := 50 }) := by
  decide

/-- Helper for C8: on an action outside every dispatch list, `execute_action`
either returns the validator's rejection (with its FAILED append) or the
"Unknown action" rejection with no append and no engine call. -/
lemma executeAction_unknown_aux (v : Policies) (e : TetrisEngine) (gs : GameState)
    (h : List HistEvent) (a : TetrisAction) (next : Tetromino)
    (h1 : a ∉ [TetrisAction.MOVE_LEFT, TetrisAction.MOVE_RIGHT, TetrisAction.MOVE_DOWN])
    (h2 : a ∉ [TetrisAction.ROTATE_CW, TetrisAction.ROTATE_CCW])
    (h3 : a ≠ TetrisAction.HARD_DROP) :
    (executeAction v e gs h a next).2.2.1.approved = false ∧
    ((validateMove v a.value h).approved = true →
      executeAction v e gs h a next =
        (gs, [], { approved := false, reason := some "Unknown action" }, none)) := by
  constructor
  · by_cases hv : (validateMove v a.value h).approved = false
    · simp only [executeAction, if_pos hv]
      exact hv
    · simp only [executeAction, if_neg hv, if_neg h1, if_neg h2, if_neg h3]
  · intro happ
    have hv : ¬ (validateMove v a.value h).approved = false := by simp [happ]
    simp only [executeAction, if_neg hv, if_neg h1, if_neg h2, if_neg h3]

/-- C8 (amended): an action outside the known player actions is always
rejected and never reaches a TransitionEngine operation; however,
`validate_move` is invoked first — only when it approves does the call return
the "Unknown action" rejection with no event appended and the state
unchanged (when it rejects, a FAILED policy-violation event is appended). -/
theorem c8_unknown_action_rejected_before_engine :
    ∀ (v : Policies) (e : TetrisEngine) (gs : GameState) (h : List HistEvent)
      (a : TetrisAction) (next : Tetromino),
      a ∈ [TetrisAction.SPAWN_PIECE, TetrisAction.LINE_CLEAR, TetrisAction.GAME_OVER] →
      ((executeAction v e gs h a next).2.2.1.approved = false ∧
        ((validateMove v a.value h).approved = true →
          executeAction v e gs h a next =
            (gs, [], { approved := false, reason := some "Unknown action" }, none))) := by
  intro v e gs h a next ha
  fin_cases ha <;>
    exact executeAction_unknown_aux v e gs h _ next (by decide) (by decide) (by decide)

/-- C8 witness: the amended theorem applied to the GAME_OVER action with empty
history (where the validator approves). -/
theorem c8_unknown_action_rejected_before_engine_witness :
    executeAction defaultPolicies eng20 dropState [] TetrisAction.GAME_OVER Tetromino.O =
      (dropState, [], { approved := false, reason := some "Unknown action" }, none) :=
  (c8_unknown_action_rejected_before_engine defaultPolicies eng20 dropState []
    TetrisAction.GAME_OVER Tetromino.O (by decide)).2 (by decide)

/-- C4: locking a piece that completes k fully-occupied rows (k = the number
of full rows of the merged board, as scanned by `_lock_piece`) adds exactly
the table bonus {0:0, 1:100, 2:300, 3:500, 4:800} (default 0 above 4) to the
score and exactly k to lines_cleared. -/
theorem c4_lock_score_table :
    (∀ (e : TetrisEngine) (s : GameState) (p : Tetromino),
      s.current_piece = some p →
      (lockPiece e s).1.score =
        s.score + pointsFor
          (linesToClear e (mergePiece e s.board p s.current_rotation s.current_pos)).length ∧
      (lockPiece e s).1.lines_cleared =
        s.lines_cleared + ((linesToClear e
          (mergePiece e s.board p s.current_rotation s.current_pos)).length : Int)) ∧
    pointsFor 0 = 0 ∧ pointsFor 1 = 100 ∧ pointsFor 2 = 300 ∧ pointsFor 3 = 500 ∧
    pointsFor 4 = 800 ∧ (∀ k, 4 < k → pointsFor k = 0) := by
  refine ⟨?_, rfl, rfl, rfl, rfl, rfl, ?_⟩
  · intro e s p hp
    simp [lockPiece, hp]
  · intro k hk
    obtain ⟨n, rfl⟩ : ∃ n, k = n + 5 := ⟨k - 5, by omega⟩
    rfl

/-- C4 witness: the scoring equation applied to the concrete two-line lock of
`bugState` on the 20x10 engine. -/
theorem c4_lock_score_table_witness :
    (lockPiece eng20 bugState).1.score =
      bugState.score + pointsFor
        (linesToClear eng20 (mergePiece eng20 bugState.board Tetromino.O
          bugState.current_rotation bugState.current_pos)).length ∧
    (lockPiece eng20 bugState).1.lines_cleared =
      bugState.lines_cleared + ((linesToClear eng20 (mergePiece eng20 bugState.board Tetromino.O
        bugState.current_rotation bugState.current_pos)).length : Int) :=
  c4_lock_score_table.1 eng20 bugState Tetromino.O rfl

/-- C7: with no active piece or with the terminal flag set, move, rotate and
hard-drop all return the unchanged state with a null event; a colliding
left/right move and a colliding rotation are pure no-ops; a colliding
move-down instead returns the lock of the input state.  (All embedded
operations are total functions: no case raises.) -/
theorem c7_noop_semantics :
    (∀ (e : TetrisEngine) (s : GameState),
      s.current_piece = none ∨ s.game_over = true →
      (∀ a, move e s a = (s, none)) ∧ (∀ cw, rotate e s cw = (s, none)) ∧
        hardDrop e s = (s, none)) ∧
    (∀ (e : TetrisEngine) (s : GameState) (a : TetrisAction) (new_pos : Int × Int),
      ¬ (s.current_piece = none ∨ s.game_over = true) →
      (a = TetrisAction.MOVE_LEFT ∨ a = TetrisAction.MOVE_RIGHT) →
      movePos s.current_pos a = some new_pos →
      checkCollision e { s with current_pos := new_pos, move_count := s.move_count + 1 } = true →
      move e s a = (s, none)) ∧
    (∀ (e : TetrisEngine) (s : GameState) (cw : Bool),
      ¬ (s.current_piece = none ∨ s.game_over = true) →
      checkCollision e { s with
        current_rotation := (s.current_rotation + if cw then 1 else 3) % 4,
        move_count := s.move_count + 1 } = true →
      rotate e s cw = (s, none)) ∧
    (∀ (e : TetrisEngine) (s : GameState),
      ¬ (s.current_piece = none ∨ s.game_over = true) →
      checkCollision e { s with
        current_pos := (s.current_pos.1 + 1, s.current_pos.2),
        move_count := s.move_count + 1 } = true →
      move e s TetrisAction.MOVE_DOWN = ((lockPiece e s).1, some (lockPiece e s).2)) := by
  refine ⟨?_, ?_, ?_, ?_⟩
  · intro e s hg
    refine ⟨fun a => ?_, fun cw => ?_, ?_⟩ <;> simp only [move, rotate, hardDrop, if_pos hg]
  · intro e s a new_pos hg ha hmp hcol
    rcases ha with rfl | rfl <;>
      simp only [move, if_neg hg, hmp, hcol, if_true, reduceCtorEq, if_false, if_neg]
  · intro e s cw hg hcol
    simp only [rotate, if_neg hg, hcol, if_true]
  · intro e s hg hcol
    simp only [move, if_neg hg, movePos, hcol, if_true]

/-- C9: an accepted, non-colliding move changes only the position and the
move count (by exactly 1); an accepted, non-colliding rotation changes only
the rotation index and the move count — board, score, lines_cleared,
game_over and the current piece are untouched, as the record-update equalities
state. -/
theorem c9_move_rotate_frame :
    (∀ (e : TetrisEngine) (s : GameState) (a : TetrisAction) (new_pos : Int × Int),
      ¬ (s.current_piece = none ∨ s.game_over = true) →
      movePos s.current_pos a = some new_pos →
      checkCollision e { s with current_pos := new_pos, move_count := s.move_count + 1 } = false →
      move e s a =
        ({ s with current_pos := new_pos, move_count := s.move_count + 1 },
         some { action := a.value
                from_pos := s.current_pos
                to_pos := new_pos
                move_number := s.move_count + 1 })) ∧
    (∀ (e : TetrisEngine) (s : GameState) (cw : Bool),
      ¬ (s.current_piece = none ∨ s.game_over = true) →
      checkCollision e { s with
        current_rotation := (s.current_rotation + if cw then 1 else 3) % 4,
        move_count := s.move_count + 1 } = false →
      rotate e s cw =
        ({ s with current_rotation := (s.current_rotation + if cw then 1 else 3) % 4,
                  move_count := s.move_count + 1 },
         some { action := (if cw then TetrisAction.ROTATE_CW else TetrisAction.ROTATE_CCW).value
                from_rotation := s.current_rotation
                to_rotation := (s.current_rotation + if cw then 1 else 3) % 4,
                move_number := s.move_count + 1 })) := by
  constructor
  · intro e s a new_pos hg hmp hcol
    simp only [move, if_neg hg, hmp, hcol, Bool.false_eq_true, if_false]
  · intro e s cw hg hcol
    simp only [rotate, if_neg hg, hcol, Bool.false_eq_true, if_false]

/-- C9 witness: a non-colliding MOVE_LEFT on the freshly spawned I piece. -/
theorem c9_move_rotate_frame_witness :
    move eng20 dropState TetrisAction.MOVE_LEFT =
      ({ dropState with current_pos := ((0 : Int), (2 : Int)),
                        move_count := dropState.move_count + 1 },
       some { action := TetrisAction.MOVE_LEFT.value
              from_pos := dropState.current_pos
              to_pos := ((0 : Int), (2 : Int))
              move_number := dropState.move_count + 1 }) :=
  c9_move_rotate_frame.1 eng20 dropState TetrisAction.MOVE_LEFT ((0 : Int), (2 : Int))
    (by decide) rfl (by decide)

/-- A state with the terminal flag set, for the C7 witness. -/
def overState : GameState := { dropState with game_over := true }

/-- An O piece flush against the left wall: MOVE_LEFT collides. -/
def wallState : GameState :=
  { GameState.new_game 20 10 with
      current_piece := some Tetromino.O
      current_pos := ((0 : Int), (0 : Int)) }

/-- C7 witness: no-op on a terminal state and on a wall collision. -/
theorem c7_noop_semantics_witness :
    move eng20 overState TetrisAction.MOVE_LEFT = (overState, none) ∧
    move eng20 wallState TetrisAction.MOVE_LEFT = (wallState, none) :=
  ⟨(c7_noop_semantics.1 eng20 overState (Or.inr rfl)).1 TetrisAction.MOVE_LEFT,
   c7_noop_semantics.2.1 eng20 wallState TetrisAction.MOVE_LEFT ((0 : Int), (-1 : Int))
     (by decide) (Or.inl rfl) (by decide) (by decide)⟩

/-! ## Score monotonicity (C10) -/

/-- One engine call, for quantifying over action sequences: a spawn with its
chosen piece, a move, a rotation, or a hard drop. -/
inductive GameOp where
  | spawn (p : Tetromino)
  | mv (a : TetrisAction)
  | rot (cw : Bool)
  | hdrop
deriving DecidableEq, Repr

/-- The state reached by one engine call. -/
def applyOp (e : TetrisEngine) (s : GameState) : GameOp → GameState
  | .spawn p => (spawnPiece e p s).1
  | .mv a => (move e s a).1
  | .rot cw => (rotate e s cw).1
  | .hdrop => (hardDrop e s).1

/-- The state reached by a sequence of engine calls. -/
def applyOps (e : TetrisEngine) (s : GameState) : List GameOp → GameState
  | [] => s
  | op :: rest => applyOps e (applyOp e s op) rest

lemma pointsFor_nonneg : ∀ k, 0 ≤ pointsFor k
  | 0 => by decide
  | 1 => by decide
  | 2 => by decide
  | 3 => by decide
  | 4 => by decide
  | _ + 5 => le_refl 0

lemma lockPiece_score_le (e : TetrisEngine) (s : GameState) :
    s.score ≤ (lockPiece e s).1.score := by
  cases hs : s.current_piece with
  | none => simp [lockPiece, hs]
  | some p =>
    simp only [lockPiece, hs]
    exact le_add_of_nonneg_right (pointsFor_nonneg _)

lemma hardDropAux_score (e : TetrisEngine) :
    ∀ (fuel : Nat) (s : GameState) (dist : Nat),
      (hardDropAux e fuel s dist).1.score = s.score := by
  intro fuel
  induction fuel with
  | zero => intro s dist; rfl
  | succ n ih =>
    intro s dist
    unfold hardDropAux
    dsimp only
    split
    · rfl
    · exact ih (shiftDown s) (dist + 1)

lemma spawnPiece_score_le (e : TetrisEngine) (p : Tetromino) (s : GameState) :
    s.score ≤ (spawnPiece e p s).1.score := by
  simp only [spawnPiece]
  split <;> exact le_refl _

lemma move_score_le (e : TetrisEngine) (s : GameState) (a : TetrisAction) :
    s.score ≤ (move e s a).1.score := by
  unfold move
  split
  · exact le_refl _
  · split
    · exact le_refl _
    · dsimp only
      split
      · split
        · exact lockPiece_score_le e s
        · exact le_refl _
      · exact le_refl _

lemma rotate_score_le (e : TetrisEngine) (s : GameState) (cw : Bool) :
    s.score ≤ (rotate e s cw).1.score := by
  unfold rotate
  split
  · exact le_refl _
  · dsimp only
    repeat' split
    all_goals exact le_refl _

lemma hardDrop_score_le (e : TetrisEngine) (s : GameState) :
    s.score ≤ (hardDrop e s).1.score := by
  unfold hardDrop
  split
  · exact le_refl _
  · dsimp only
    have h1 := hardDropAux_score e (e.rows + 2) s 0
    have h2 := lockPiece_score_le e (hardDropAux e (e.rows + 2) s 0).1
    have h3 : (0 : Int) ≤ ((hardDropAux e (e.rows + 2) s 0).2 : Int) * 2 := by positivity
    calc s.score = (hardDropAux e (e.rows + 2) s 0).1.score := h1.symm
      _ ≤ (lockPiece e (hardDropAux e (e.rows + 2) s 0).1).1.score := h2
      _ ≤ _ := le_add_of_nonneg_right h3

lemma applyOp_score_le (e : TetrisEngine) (s : GameState) (op : GameOp) :
    s.score ≤ (applyOp e s op).score := by
  cases op with
  | spawn p => exact spawnPiece_score_le e p s
  | mv a => exact move_score_le e s a
  | rot cw => exact rotate_score_le e s cw
  | hdrop => exact hardDrop_score_le e s

lemma applyOps_score_le (e : TetrisEngine) :
    ∀ (ops : List GameOp) (s : GameState), s.score ≤ (applyOps e s ops).score := by
  intro ops
  induction ops with
  | nil => intro s; exact le_refl _
  | cons op rest ih =>
    intro s
    exact le_trans (applyOp_score_le e s op) (ih (applyOp e s op))

/-- C10: every engine operation (spawn, move, rotate, hard drop, and the
internal lock) yields a score at least the input score; hence over any
sequence of engine calls the score never decreases, and starting from
`new_game` it stays non-negative. -/
theorem c10_score_monotone :
    (∀ (e : TetrisEngine) (p : Tetromino) (s : GameState),
      s.score ≤ (spawnPiece e p s).1.score) ∧
    (∀ (e : TetrisEngine) (s : GameState) (a : TetrisAction),
      s.score ≤ (move e s a).1.score) ∧
    (∀ (e : TetrisEngine) (s : GameState) (cw : Bool),
      s.score ≤ (rotate e s cw).1.score) ∧
    (∀ (e : TetrisEngine) (s : GameState), s.score ≤ (hardDrop e s).1.score) ∧
    (∀ (e : TetrisEngine) (s : GameState), s.score ≤ (lockPiece e s).1.score) ∧
    (∀ (e : TetrisEngine) (s : GameState) (ops : List GameOp),
      s.score ≤ (applyOps e s ops).score) ∧
    (∀ (e : TetrisEngine) (rows cols : Nat) (ops : List GameOp),
      0 ≤ (applyOps e (GameState.new_game rows cols) ops).score) :=
  ⟨spawnPiece_score_le, move_score_le, rotate_score_le, hardDrop_score_le,
   lockPiece_score_le, fun e s ops => applyOps_score_le e ops s,
   fun e rows cols ops => applyOps_score_le e ops (GameState.new_game rows cols)⟩

/-! ## Hard drop (C5) -/

lemma shiftDown_iterate (s : GameState) :
    ∀ d : Nat, shiftDown^[d] s =
      { s with current_pos := (s.current_pos.1 + (d : Int), s.current_pos.2) }
  | 0 => by simp
  | d + 1 => by
    rw [Function.iterate_succ_apply', shiftDown_iterate s d]
    simp only [shiftDown, GameState.mk.injEq, Prod.mk.injEq, and_true, true_and]
    push_cast
    ring

lemma getPieceBlocks_length (p : Tetromino) : ∀ r : Nat, (getPieceBlocks p r).length = 4
  | 0 => by cases p <;> rfl
  | r + 1 => by
    show (rotateOnce^[r + 1] (SHAPES p)).length = 4
    rw [Function.iterate_succ_apply', rotateOnce, List.length_map]
    exact getPieceBlocks_length p r

/-- A collision-free state keeps every block of its piece inside the vertical
bounds. -/
lemma checkCollision_false_row_bounds (e : TetrisEngine) (s : GameState) (p : Tetromino)
    (hp : s.current_piece = some p) (hc : checkCollision e s = false) :
    ∀ blk ∈ getPieceBlocks p s.current_rotation,
      0 ≤ s.current_pos.1 + blk.1 ∧ s.current_pos.1 + blk.1 < (e.rows : Int) := by
  intro blk hblk
  unfold checkCollision at hc
  rw [hp, List.any_eq_false] at hc
  have h := hc blk hblk
  simp only [Bool.or_eq_true, not_or, decide_eq_true_eq, not_lt, not_le] at h
  obtain ⟨⟨⟨⟨h1, h2⟩, h3⟩, h4⟩, h5⟩ := h
  exact ⟨h1, h2⟩

/-- The descent cannot run more than `rows + 1` steps: step 1 keeps some block
at row ≥ -1 and step d keeps the same block below row `rows`. -/
lemma drop_bound (e : TetrisEngine) (s : GameState) (p : Tetromino)
    (hp : s.current_piece = some p) (d : Nat)
    (hfree : ∀ j, 1 ≤ j → j ≤ d → checkCollision e (shiftDown^[j] s) = false) :
    d < e.rows + 2 := by
  rcases Nat.eq_zero_or_pos d with rfl | hd
  · omega
  · have h1 := hfree 1 le_rfl hd
    have hdd := hfree d hd le_rfl
    rw [shiftDown_iterate] at h1 hdd
    obtain ⟨blk, hblk⟩ :=
      List.exists_mem_of_ne_nil (getPieceBlocks p s.current_rotation) (by
        intro hnil
        have hlen := getPieceBlocks_length p s.current_rotation
        rw [hnil] at hlen
        simp at hlen)
    have b1 := (checkCollision_false_row_bounds e
      { s with current_pos := (s.current_pos.1 + ((1 : Nat) : Int), s.current_pos.2) }
      p hp h1 blk hblk).1
    have bd := (checkCollision_false_row_bounds e
      { s with current_pos := (s.current_pos.1 + ((d : Nat) : Int), s.current_pos.2) }
      p hp hdd blk hblk).2
    dsimp only at b1 bd
    omega

/-- The fueled descent loop computes the unique resting distance: if the first
collision on the way down happens after `d + 1` steps, the loop stops after
exactly `d` steps (for any sufficient fuel). -/
lemma hardDropAux_eq (e : TetrisEngine) :
    ∀ (d fuel : Nat) (s : GameState) (acc : Nat), d < fuel →
      (∀ j, 1 ≤ j → j ≤ d → checkCollision e (shiftDown^[j] s) = false) →
      checkCollision e (shiftDown^[d + 1] s) = true →
      hardDropAux e fuel s acc = (shiftDown^[d] s, acc + d) := by
  intro d
  induction d with
  | zero =>
    intro fuel s acc hf _ hcol
    match fuel, hf with
    | f + 1, _ =>
      unfold hardDropAux
      dsimp only
      rw [if_pos (by simpa using hcol)]
      simp
  | succ n ih =>
    intro fuel s acc hf hfree hcol
    match fuel, hf with
    | f + 1, hf =>
      unfold hardDropAux
      dsimp only
      have h1 : checkCollision e (shiftDown s) = false := by
        simpa using hfree 1 le_rfl (by omega)
      rw [if_neg (by simp [h1])]
      rw [ih f (shiftDown s) (acc + 1) (by omega)
        (fun j hj1 hj2 => by
          simpa [Function.iterate_succ_apply] using hfree (j + 1) (by omega) (by omega))
        (by simpa [Function.iterate_succ_apply] using hcol)]
      rw [← Function.iterate_succ_apply]
      refine Prod.ext rfl ?_
      dsimp only
      omega

/-- C5: on a state with an active piece and not game over, if the descent from
the current position stays collision-free for exactly `d` downward steps and
collides at step `d + 1`, then hard drop moves the piece straight down by `d`
rows, locks there, and returns the post-lock state with `d * 2` bonus points
added to its score and an event reporting drop distance exactly `d`. -/
theorem c5_hard_drop_descends_and_scores :
    ∀ (e : TetrisEngine) (s : GameState) (p : Tetromino) (d : Nat),
      s.current_piece = some p →
      s.game_over = false →
      (∀ j, 1 ≤ j → j ≤ d → checkCollision e (shiftDown^[j] s) = false) →
      checkCollision e (shiftDown^[d + 1] s) = true →
      (shiftDown^[d] s).current_pos = (s.current_pos.1 + (d : Int), s.current_pos.2) ∧
      hardDrop e s =
        ({ (lockPiece e (shiftDown^[d] s)).1 with
             score := (lockPiece e (shiftDown^[d] s)).1.score + (d : Int) * 2 },
         some { action := "HARD_DROP"
                from_pos := s.current_pos
                to_pos := (shiftDown^[d] s).current_pos
                drop_distance := d
                bonus_points := (d : Int) * 2 }) := by
  intro e s p d hp hov hfree hcol
  refine ⟨by rw [shiftDown_iterate], ?_⟩
  have hb : d < e.rows + 2 := drop_bound e s p hp d hfree
  have haux := hardDropAux_eq e d (e.rows + 2) s 0 hb hfree hcol
  unfold hardDrop
  rw [if_neg (by simp [hp, hov])]
  dsimp only
  rw [haux]
  simp

/-- A small engine for the C5 witness: 4 rows, 2 columns. -/
def eng42 : TetrisEngine := { rows := 4, cols := 2 }

/-- An O piece at the top-left of an empty 4x2 board: it can descend exactly
2 rows before the next step would leave the board. -/
def smallState : GameState :=
  { GameState.new_game 4 2 with
      current_piece := some Tetromino.O
      current_pos := ((0 : Int), (0 : Int)) }

/-- C5 witness: the hard-drop characterization applied to the O piece on the
empty 4x2 board, where the resting distance is 2. -/
theorem c5_hard_drop_descends_and_scores_witness :
    (shiftDown^[2] smallState).current_pos =
      (smallState.current_pos.1 + ((2 : Nat) : Int), smallState.current_pos.2) ∧
    hardDrop eng42 smallState =
      ({ (lockPiece eng42 (shiftDown^[2] smallState)).1 with
           score := (lockPiece eng42 (shiftDown^[2] smallState)).1.score + ((2 : Nat) : Int) * 2 },
       some { action := "HARD_DROP"
              from_pos := smallState.current_pos
              to_pos := (shiftDown^[2] smallState).current_pos
              drop_distance := 2
              bonus_points := ((2 : Nat) : Int) * 2 }) :=
  c5_hard_drop_descends_and_scores eng42 smallState Tetromino.O 2 rfl rfl
    (fun j hj1 hj2 =>
      match j, hj1, hj2 with
      | 0, h, _ => absurd h (by decide)
      | 1, _, _ => by decide
      | 2, _, _ => by decide
      | n + 3, _, h => absurd h (by omega))
    (by decide)

end TetrisSpec
